import Mathlib

/-
Verification of the parallel-ssh tunnel core against its specification.

The development shallowly embeds the two tunnel implementations of the
repository:

  * pssh/clients/native/tunnel.py  (the "native" variant), and
  * pssh/tunnel.py                 (the "legacy" variant).

External effects (socket reads and writes, channel reads and writes,
readiness waits, accept, bind/listen, session establishment) are driven
by explicit oracles: lists or flags prescribing the result of each
external call.  Each embedded function returns the trace of events the
Python code would perform under that oracle, so ordering and resource
properties become statements about traces.
-/

/-- ssh2 error code for a would-block result (ssh2.error_codes). -/
def LIBSSH2_ERROR_EAGAIN : Int := -37

/-- Events performed by a forwarding pump (`_read_forward_sock`):
an `eof()` check on the channel, a `recv` on the forward socket, a
`channel.write` call together with the return code the oracle gave it,
a readiness wait (`select` / `wait_select`), or an error log. -/
inductive PEv
  | eofCheck (b : Bool)
  | recv (data : List Nat)
  | write (buf : List Nat) (rc : Int)
  | wait
  | logError (rc : Int)
deriving DecidableEq

/-- Outcome of the inner write loop of `_read_forward_sock`:
all bytes delivered (`done`), the pump ended on a negative
non-would-block return code (`errored`), or the oracle prescribed no
result for a write call the code performs (`stuck`). -/
inductive WOut
  | done
  | errored (rc : Int)
  | stuck
deriving DecidableEq

/-- Inner write loop of the native `_read_forward_sock`
(pssh/clients/native/tunnel.py lines 74-86), after the initial
`rc = channel.write(data)` has consumed the first oracle entry.
`dw` is `data_written`, `rc` the most recent write return code and `ws`
the remaining oracle of write return codes.  On would-block the code
waits for readiness and retries `channel.write(data[data_written:])`;
on a negative non-would-block code it logs and returns; otherwise it
advances `data_written` by `rc` and issues the next
`channel.write(data[data_written:])`. -/
def writeLoopGoNative (data : List Nat) : Nat → Int → List Int → List PEv × WOut
  | dw, rc, [] =>
    if dw < data.length then
      if rc = LIBSSH2_ERROR_EAGAIN then ([PEv.wait], WOut.stuck)
      else if rc < 0 then ([PEv.logError rc], WOut.errored rc)
      else ([], WOut.stuck)
    else ([], WOut.done)
  | dw, rc, r :: ws1 =>
    if dw < data.length then
      if rc = LIBSSH2_ERROR_EAGAIN then
        let p := writeLoopGoNative data dw r ws1
        (PEv.wait :: PEv.write (data.drop dw) r :: p.1, p.2)
      else if rc < 0 then ([PEv.logError rc], WOut.errored rc)
      else
        let dw2 := dw + rc.toNat
        let p := writeLoopGoNative data dw2 r ws1
        (PEv.write (data.drop dw2) r :: p.1, p.2)
    else ([], WOut.done)

/-- The native write loop including the initial `rc = channel.write(data)`
(pssh/clients/native/tunnel.py line 73). -/
def writeLoopNative (data : List Nat) : List Int → List PEv × WOut
  | [] => ([], WOut.stuck)
  | r :: ws1 =>
    let p := writeLoopGoNative data 0 r ws1
    (PEv.write data r :: p.1, p.2)

/-- Inner write loop of the legacy `_read_forward_sock`
(pssh/tunnel.py lines 70-82).  Identical to the native loop except that
after a would-block it retries `channel.write(data)` - the whole chunk
from offset 0 - instead of `channel.write(data[data_written:])`. -/
def writeLoopGoLegacy (data : List Nat) : Nat → Int → List Int → List PEv × WOut
  | dw, rc, [] =>
    if dw < data.length then
      if rc = LIBSSH2_ERROR_EAGAIN then ([PEv.wait], WOut.stuck)
      else if rc < 0 then ([PEv.logError rc], WOut.errored rc)
      else ([], WOut.stuck)
    else ([], WOut.done)
  | dw, rc, r :: ws1 =>
    if dw < data.length then
      if rc = LIBSSH2_ERROR_EAGAIN then
        let p := writeLoopGoLegacy data dw r ws1
        (PEv.wait :: PEv.write data r :: p.1, p.2)
      else if rc < 0 then ([PEv.logError rc], WOut.errored rc)
      else
        let dw2 := dw + rc.toNat
        let p := writeLoopGoLegacy data dw2 r ws1
        (PEv.write (data.drop dw2) r :: p.1, p.2)
    else ([], WOut.done)

/-- The legacy write loop including the initial `rc = channel.write(data)`
(pssh/tunnel.py line 69). -/
def writeLoopLegacy (data : List Nat) : List Int → List PEv × WOut
  | [] => ([], WOut.stuck)
  | r :: ws1 =>
    let p := writeLoopGoLegacy data 0 r ws1
    (PEv.write data r :: p.1, p.2)

/-- Bytes actually delivered to the sink by a trace: a `write buf rc`
call with a non-negative return code delivers the first `rc` bytes of
the buffer it was given; would-block and error results deliver
nothing. -/
def delivered : List PEv → List Nat
  | [] => []
  | PEv.write buf rc :: t =>
    (if 0 ≤ rc then buf.take rc.toNat else []) ++ delivered t
  | _ :: t => delivered t

/-- Outcome of one run of the native pump `_read_forward_sock`:
clean return at the `channel.eof()` check, a write error, or oracle
exhaustion. -/
inductive POut
  | clean
  | werror (rc : Int)
  | stuck
deriving DecidableEq

/-- The native pump `_read_forward_sock`
(pssh/clients/native/tunnel.py lines 63-86).  Each oracle entry
prescribes one iteration of the outer loop: the `channel.eof()` result,
the bytes `forward_sock.recv(1024)` returns, and the return codes for
the `channel.write` calls of that iteration.  A true `eof()` returns
cleanly; an empty read loops back (`continue`) without writing;
otherwise the write loop runs and a write error ends the pump. -/
def pumpNative : List (Bool × List Nat × List Int) → List PEv × POut
  | [] => ([], POut.stuck)
  | (eof, data, ws) :: o1 =>
    if eof then ([PEv.eofCheck true], POut.clean)
    else
      if data.length = 0 then
        let p := pumpNative o1
        (PEv.eofCheck false :: PEv.recv data :: p.1, p.2)
      else
        let w := writeLoopNative data ws
        match w.2 with
        | WOut.done =>
          let p := pumpNative o1
          (PEv.eofCheck false :: PEv.recv data :: (w.1 ++ p.1), p.2)
        | WOut.errored rc =>
          (PEv.eofCheck false :: PEv.recv data :: w.1, POut.werror rc)
        | WOut.stuck =>
          (PEv.eofCheck false :: PEv.recv data :: w.1, POut.stuck)

/-- A forward request as submitted on the intake queue:
`(target_host, target_port)`. -/
abbrev Req := String × Nat

/-- Supervisor-level events, in the order the Python code performs them:
session establishment, setting (or, never in this code, clearing) the
`tunnel_open` latch, popping a request from the intake queue, spawning a
forwarding pair, the bind+listen of a fresh listening socket, closing a
fresh socket whose bind/listen failed, pushing the listen port on the
result queue, the `accept()` call, a readiness wait, the final result of
the `direct_tcpip_ex` retry loop, spawning the two pumps, joining them
(recording whether a pump raised), an error log, storing into
`self.exception`, the various closes, and the session disconnect. -/
inductive Ev
  | establish (ok : Bool)
  | setOpen
  | clearOpen
  | popReq (r : Req)
  | spawnPair (r : Req)
  | bindListen (ok : Bool)
  | closeFresh
  | pushPort (p : Nat)
  | acceptCall (ok : Bool)
  | waitRW
  | openChan (ok : Bool)
  | spawnPumps
  | joinPumps (raised : Bool)
  | logErr
  | setExc
  | closeListen
  | closeForward
  | closeChannel
  | disconnect
deriving DecidableEq

/-- Oracle for one `_start_tunnel` invocation: whether the listening
socket can be bound and listened, whether `accept()` succeeds, how many
would-block results the `direct_tcpip_ex` retry loop sees before its
final result, whether the channel finally opens, whether one of the two
pumps raises, and the ephemeral port number the OS allocates. -/
structure PairO where
  allocOk : Bool
  acceptOk : Bool
  chanEagains : Nat
  chanOk : Bool
  pumpsRaise : Bool
  port : Nat
deriving DecidableEq

/-- Trace of the native `Tunnel._start_tunnel`
(pssh/clients/native/tunnel.py lines 154-201).  Listen-socket allocation
failure logs, records the error and returns (the fresh socket was closed
inside `_init_tunnel_sock`); otherwise the listen port is pushed on
`out_q`, then `accept()` runs (failure: log, record, close the listening
socket); then the `direct_tcpip_ex` would-block retry loop (failure:
log, record, close the accepted socket then the listening socket); then
the two pumps are spawned and joined inside try/except/finally, a raised
pump is logged, and the finally block closes the channel then the
forward socket. -/
def startTunnelNative (o : PairO) : List Ev :=
  if o.allocOk = false then
    [Ev.bindListen false, Ev.closeFresh, Ev.logErr, Ev.setExc]
  else
    Ev.bindListen true :: Ev.pushPort o.port ::
    (if o.acceptOk = false then
      [Ev.acceptCall false, Ev.logErr, Ev.setExc, Ev.closeListen]
    else
      Ev.acceptCall true ::
      (List.replicate o.chanEagains Ev.waitRW ++
       (if o.chanOk = false then
         [Ev.openChan false, Ev.logErr, Ev.setExc, Ev.closeForward, Ev.closeListen]
       else
         Ev.openChan true :: Ev.spawnPumps :: Ev.joinPumps o.pumpsRaise ::
         ((if o.pumpsRaise then [Ev.logErr] else []) ++
          [Ev.closeChannel, Ev.closeForward]))))

/-- Trace of the legacy `Tunnel._start_tunnel`
(pssh/tunnel.py lines 144-177).  `_init_tunnel_sock` has no exception
handler, so an allocation failure propagates with nothing closed or
recorded; the listen port is put on `out_q` and only then is
`tunnel_open` set; `accept()` failure also propagates; channel-open
failure logs and records but closes nothing; `joinall` is not wrapped in
try/finally, so a raised pump propagates and the
`channel.close()` / `forward_sock.close()` lines are skipped. -/
def startTunnelLegacy (o : PairO) : List Ev :=
  if o.allocOk = false then
    [Ev.bindListen false]
  else
    Ev.bindListen true :: Ev.pushPort o.port :: Ev.setOpen ::
    (if o.acceptOk = false then
      [Ev.acceptCall false]
    else
      Ev.acceptCall true ::
      (List.replicate o.chanEagains Ev.waitRW ++
       (if o.chanOk = false then
         [Ev.openChan false, Ev.logErr, Ev.setExc]
       else
         Ev.openChan true :: Ev.spawnPumps :: Ev.joinPumps o.pumpsRaise ::
         (if o.pumpsRaise then []
          else [Ev.closeChannel, Ev.closeForward]))))

/-- `deque.pop()`: removes and returns the rightmost (most recently
appended) element, or raises IndexError on an empty deque (`none`).
The intake queue of the native tunnel is a `collections.deque` whose
producers `append` on the right. -/
def dequePop (q : List α) : Option (α × List α) :=
  match q.getLast? with
  | none => none
  | some x => some (x, q.dropLast)

/-- The native `Tunnel._consume_q` loop
(pssh/clients/native/tunnel.py lines 143-152) run until the intake
deque, holding `q` pending entries in submission order (oldest first),
is drained: each iteration `pop()`s one entry and spawns
`_start_tunnel` for it; an IndexError sleeps and retries.  `fuel`
bounds the number of iterations modelled. -/
def consumeLoop (fuel : Nat) (q : List α) : List α :=
  match fuel with
  | 0 => []
  | fuel1 + 1 =>
    match dequePop q with
    | none => []
    | some (x, q1) => x :: consumeLoop fuel1 q1

/-- Order in which the native `_consume_q` hands pending intake entries
to `_start_tunnel`, given the deque contents in submission order. -/
def consumeOrder (q : List α) : List α := consumeLoop q.length q

/-- Supervisor-side trace of the native `_consume_q` over the pending
entries: each consumed entry is popped and then handed to `spawn`;
the loop never joins the spawned pair and never inspects its outcome. -/
def consumeTrace (q : List Req) : List Ev :=
  ((consumeOrder q).map (fun r => [Ev.popReq r, Ev.spawnPair r])).flatten

/-- The native `Tunnel.run` (pssh/clients/native/tunnel.py lines
203-218) with the session-establishment result and the pending intake
entries as oracle.  Returns the supervisor trace and whether the thread
terminated.  On establishment failure `_init_tunnel_client` raises
before `tunnel_open.set()`: the error is logged and recorded and `run`
returns (thread dead).  On success the latch is set and the consume
loop runs forever (thread stays alive). -/
def runNative (sessionOk : Bool) (q : List Req) : List Ev × Bool :=
  if sessionOk then
    (Ev.establish true :: Ev.setOpen :: consumeTrace q, false)
  else
    ([Ev.establish false, Ev.logErr, Ev.setExc], true)

/-- The legacy `Tunnel.run` + `_consume_q` (pssh/tunnel.py lines
137-142 and 179-196) serving a single request: `_init_tunnel_client`
sets no latch; `_consume_q` gets one request from the (FIFO) queue,
spawns `_start_tunnel` and waits for it; the finally block then runs
`_cleanup`, which disconnects the session. -/
def runLegacy (sessionOk : Bool) (r : Req) (o : PairO) : List Ev :=
  if sessionOk then
    Ev.establish true :: Ev.popReq r :: (startTunnelLegacy o ++ [Ev.disconnect])
  else
    [Ev.establish false, Ev.logErr, Ev.setExc]

/-- State owned by the native supervisor that `cleanup` touches: the
closed-flags of the tracked listening sockets (`self._sockets`) and
whether `self.session` is set. -/
structure SupSt where
  socksClosed : List Bool
  sessionSome : Bool
deriving DecidableEq

/-- Events of `Tunnel.cleanup`: a `close()` call on tracked socket `i`,
the `client.disconnect()`, and an error log. -/
inductive CEv
  | closeSock (i : Nat)
  | disconnect
  | logErr
deriving DecidableEq

/-- The native `Tunnel.cleanup` (pssh/clients/native/tunnel.py lines
130-141): close every tracked socket (closing an already-closed gevent
socket is a harmless no-op and raises nothing), then, only if
`self.session` is still set, disconnect the client and clear both
references. -/
def cleanup (s : SupSt) : SupSt × List CEv :=
  let closeEvs := (List.range s.socksClosed.length).map CEv.closeSock
  let socks1 := s.socksClosed.map (fun _ => true)
  if s.sessionSome then
    (⟨socks1, false⟩, closeEvs ++ [CEv.disconnect])
  else
    (⟨socks1, s.sessionSome⟩, closeEvs)

/-- A listening socket as tracked by the supervisor: the address it is
bound to (if any), whether `listen` succeeded on it, and whether it has
been closed. -/
structure TSock where
  addr : Option String
  listening : Bool
  closed : Bool
deriving DecidableEq

/-- The native `Tunnel._init_tunnel_sock`
(pssh/clients/native/tunnel.py lines 108-118): create a fresh socket;
bind it to `('127.0.0.1', 0)`; listen; read the allocated port; append
it to `self._sockets` and return it.  If bind or listen raises, the
fresh socket is closed and the exception re-raised, leaving
`self._sockets` untouched.  Returns the new tracked list, the final
state of the fresh socket, and `some port` on success. -/
def initTunnelSock (bindOk listenOk : Bool) (tracked : List TSock) (port : Nat) :
    List TSock × TSock × Option Nat :=
  if bindOk = false then
    (tracked, ⟨none, false, true⟩, none)
  else if listenOk = false then
    (tracked, ⟨some "127.0.0.1", false, true⟩, none)
  else
    (tracked ++ [⟨some "127.0.0.1", true, false⟩],
     ⟨some "127.0.0.1", true, false⟩, some port)

/-- The would-block code truncates to zero as a byte count. -/
lemma eagain_toNat : LIBSSH2_ERROR_EAGAIN.toNat = 0 := rfl

/-- Gluing a partial write to the remaining suffix recovers the whole
remaining chunk. -/
lemma take_drop_glue (data : List Nat) (dw k : Nat) :
    (data.drop dw).take k ++ data.drop (dw + k) = data.drop dw := by
  have h : data.drop (dw + k) = (data.drop dw).drop k := by
    rw [List.drop_drop, Nat.add_comm]
  rw [h, List.take_append_drop]

/-- Unfolding of the native write loop on a would-block result. -/
lemma writeLoopGoNative_cons_eagain (data : List Nat) (dw : Nat) (r : Int)
    (ws1 : List Int) (hlt : dw < data.length) :
    writeLoopGoNative data dw LIBSSH2_ERROR_EAGAIN (r :: ws1) =
      (PEv.wait :: PEv.write (data.drop dw) r ::
         (writeLoopGoNative data dw r ws1).1,
       (writeLoopGoNative data dw r ws1).2) := by
  simp [writeLoopGoNative, hlt]

/-- Unfolding of the native write loop on a non-negative write result. -/
lemma writeLoopGoNative_cons_ok (data : List Nat) (dw : Nat) (rc r : Int)
    (ws1 : List Int) (hlt : dw < data.length) (hge : 0 ≤ rc)
    (hne : rc ≠ LIBSSH2_ERROR_EAGAIN) :
    writeLoopGoNative data dw rc (r :: ws1) =
      (PEv.write (data.drop (dw + rc.toNat)) r ::
         (writeLoopGoNative data (dw + rc.toNat) r ws1).1,
       (writeLoopGoNative data (dw + rc.toNat) r ws1).2) := by
  simp [writeLoopGoNative, hlt, hne, not_lt.mpr hge]

/-- Unfolding of the native write loop on a negative non-would-block
result: the error is logged and the pump ends. -/
lemma writeLoopGoNative_err (data : List Nat) (dw : Nat) (rc : Int)
    (ws : List Int) (hlt : dw < data.length) (hn : rc < 0)
    (hne : rc ≠ LIBSSH2_ERROR_EAGAIN) :
    writeLoopGoNative data dw rc ws = ([PEv.logError rc], WOut.errored rc) := by
  cases ws <;> simp [writeLoopGoNative, hlt, hn, hne]

/-- Unfolding of the native write loop once all bytes are delivered. -/
lemma writeLoopGoNative_done (data : List Nat) (dw : Nat) (rc : Int)
    (ws : List Int) (hge : ¬dw < data.length) :
    writeLoopGoNative data dw rc ws = ([], WOut.done) := by
  cases ws <;> simp [writeLoopGoNative, hge]

/-- Invariant of the native write loop: when it completes, the events it
performs from state `(dw, rc)` deliver exactly the not-yet-delivered
suffix of the chunk. -/
lemma writeLoopGoNative_delivered (data : List Nat) :
    ∀ (ws : List Int) (dw : Nat) (rc : Int),
      (writeLoopGoNative data dw rc ws).2 = WOut.done →
      delivered (writeLoopGoNative data dw rc ws).1 = data.drop (dw + rc.toNat) := by
  intro ws
  induction ws with
  | nil =>
    intro dw rc h
    by_cases hlt : dw < data.length
    · by_cases he : rc = LIBSSH2_ERROR_EAGAIN
      · simp [writeLoopGoNative, hlt, he] at h
      · by_cases hn : rc < 0
        · simp [writeLoopGoNative_err data dw rc [] hlt hn he] at h
        · simp [writeLoopGoNative, hlt, he, hn] at h
    · have hge : data.length ≤ dw := Nat.le_of_not_lt hlt
      simp [writeLoopGoNative_done data dw rc [] hlt, delivered,
        List.drop_eq_nil_of_le (le_trans hge (Nat.le_add_right _ _))]
  | cons r ws1 ih =>
    intro dw rc h
    by_cases hlt : dw < data.length
    · by_cases he : rc = LIBSSH2_ERROR_EAGAIN
      · subst he
        simp only [writeLoopGoNative_cons_eagain data dw r ws1 hlt] at h ⊢
        have ihr := ih dw r h
        by_cases hr : 0 ≤ r
        · simp only [delivered, if_pos hr, ihr, eagain_toNat, Nat.add_zero]
          exact take_drop_glue data dw r.toNat
        · have hr0 : r.toNat = 0 := Int.toNat_of_nonpos (le_of_lt (not_le.mp hr))
          simp only [delivered, if_neg hr, ihr, eagain_toNat, hr0, Nat.add_zero,
            List.nil_append]
      · by_cases hn : rc < 0
        · simp [writeLoopGoNative_err data dw rc (r :: ws1) hlt hn he] at h
        · have hge : 0 ≤ rc := not_lt.mp hn
          simp only [writeLoopGoNative_cons_ok data dw rc r ws1 hlt hge he] at h ⊢
          have ihr := ih (dw + rc.toNat) r h
          by_cases hr : 0 ≤ r
          · simp only [delivered, if_pos hr, ihr]
            exact take_drop_glue data (dw + rc.toNat) r.toNat
          · have hr0 : r.toNat = 0 := Int.toNat_of_nonpos (le_of_lt (not_le.mp hr))
            simp only [delivered, if_neg hr, ihr, hr0, Nat.add_zero,
              List.nil_append]
    · have hge : data.length ≤ dw := Nat.le_of_not_lt hlt
      simp [writeLoopGoNative_done data dw rc (r :: ws1) hlt, delivered,
        List.drop_eq_nil_of_le (le_trans hge (Nat.le_add_right _ _))]

/-- The native write loop, when it completes, delivers exactly the bytes
of the chunk it was given - partial writes resume at the first
undelivered byte, and would-block retries re-send only the remainder. -/
lemma writeLoopNative_exact (data : List Nat) (ws : List Int) :
    (writeLoopNative data ws).2 = WOut.done →
    delivered (writeLoopNative data ws).1 = data := by
  cases ws with
  | nil => intro h; simp [writeLoopNative] at h
  | cons r ws1 =>
    intro h
    simp only [writeLoopNative] at h ⊢
    have hd := writeLoopGoNative_delivered data ws1 0 r h
    by_cases hr : 0 ≤ r
    · simp [delivered, hr, hd, List.take_append_drop]
    · have hr0 : r.toNat = 0 := Int.toNat_of_nonpos (le_of_lt (not_le.mp hr))
      simp [delivered, hr, hd, hr0]

/-- The native write loop ends with an error only on a negative
return code that is not the would-block code. -/
lemma writeLoopGoNative_errored (data : List Nat) :
    ∀ (ws : List Int) (dw : Nat) (rc0 rc : Int),
      (writeLoopGoNative data dw rc0 ws).2 = WOut.errored rc →
      rc < 0 ∧ rc ≠ LIBSSH2_ERROR_EAGAIN := by
  intro ws
  induction ws with
  | nil =>
    intro dw rc0 rc h
    by_cases hlt : dw < data.length
    · by_cases he : rc0 = LIBSSH2_ERROR_EAGAIN
      · simp [writeLoopGoNative, hlt, he] at h
      · by_cases hn : rc0 < 0
        · simp only [writeLoopGoNative, if_pos hlt, if_neg he, if_pos hn] at h
          cases h
          exact ⟨hn, he⟩
        · simp [writeLoopGoNative, hlt, he, hn] at h
    · simp [writeLoopGoNative, hlt] at h
  | cons r ws1 ih =>
    intro dw rc0 rc h
    by_cases hlt : dw < data.length
    · by_cases he : rc0 = LIBSSH2_ERROR_EAGAIN
      · simp only [writeLoopGoNative, if_pos hlt, if_pos he] at h
        exact ih dw r rc h
      · by_cases hn : rc0 < 0
        · simp only [writeLoopGoNative, if_pos hlt, if_neg he, if_pos hn] at h
          cases h
          exact ⟨hn, he⟩
        · simp only [writeLoopGoNative, if_pos hlt, if_neg he, if_neg hn] at h
          exact ih (dw + rc0.toNat) r rc h
    · simp [writeLoopGoNative, hlt] at h

/-- Claim C1: each non-empty chunk is written to the sink exactly,
partial writes are retried from the first undelivered byte, would-block
is retried after a readiness wait and never surfaced as an error, and
only a negative non-would-block write result ends the pump.  This holds
for the native pump, but the legacy pump (pssh/tunnel.py line 74)
retries `channel.write(data)` - the whole chunk from offset 0 - after a
would-block.  Concretely, for the chunk `[1, 2]` with write results
1 byte, would-block, 2 bytes, 0 bytes, the legacy loop reports success
while having delivered `[1, 1, 2]`: the first byte is sent twice.  The
native loop at the same oracle delivers exactly `[1, 2]`. -/
theorem c1_legacy_wouldblock_retry_duplicates_bytes :
    (writeLoopLegacy [1, 2] [1, LIBSSH2_ERROR_EAGAIN, 2, 0]).2 = WOut.done ∧
    delivered (writeLoopLegacy [1, 2] [1, LIBSSH2_ERROR_EAGAIN, 2, 0]).1 = [1, 1, 2] ∧
    delivered (writeLoopLegacy [1, 2] [1, LIBSSH2_ERROR_EAGAIN, 2, 0]).1 ≠ [1, 2] ∧
    (writeLoopNative [1, 2] [1, LIBSSH2_ERROR_EAGAIN, 2, 0]).2 = WOut.done ∧
    delivered (writeLoopNative [1, 2] [1, LIBSSH2_ERROR_EAGAIN, 2, 0]).1 = [1, 2] := by
  decide

/-- A clean (non-error) return of the native pump happens only at a true
`channel.eof()` check: the trace ends with it. -/
lemma pumpNative_clean_ends_eof :
    ∀ o, (pumpNative o).2 = POut.clean →
      ∃ t, (pumpNative o).1 = t ++ [PEv.eofCheck true] := by
  intro o
  induction o with
  | nil => intro h; simp [pumpNative] at h
  | cons e o1 ih =>
    obtain ⟨eof, data, ws⟩ := e
    intro h
    by_cases he : eof = true
    · exact ⟨[], by simp [pumpNative, he]⟩
    · by_cases hd : data.length = 0
      · simp only [pumpNative, he, hd, if_pos, if_neg, if_false, Bool.false_eq_true,
          ite_true, ite_false] at h ⊢
        obtain ⟨t, ht⟩ := ih (by simpa using h)
        exact ⟨PEv.eofCheck false :: PEv.recv data :: t, by simp [ht]⟩
      · cases hw : (writeLoopNative data ws).2 with
        | done =>
          simp only [pumpNative, he, hd, hw, Bool.false_eq_true, ite_false, if_neg] at h ⊢
          obtain ⟨t, ht⟩ := ih (by simpa [hw] using h)
          refine ⟨PEv.eofCheck false :: PEv.recv data ::
            ((writeLoopNative data ws).1 ++ t), ?_⟩
          simp [hw, ht]
        | errored rc => simp [pumpNative, he, hd, hw] at h
        | stuck => simp [pumpNative, he, hd, hw] at h

/-- Claim C8: a zero-length read that is not accompanied by an explicit
EOF signal does not end the native pump - the loop retries immediately,
performing no write - and the pump ends cleanly only when the
`channel.eof()` check is true. -/
theorem c8_zero_read_retries_clean_end_only_on_eof :
    (∀ o, (pumpNative o).2 = POut.clean →
      ∃ t, (pumpNative o).1 = t ++ [PEv.eofCheck true]) ∧
    (∀ (ws : List Int) (o1 : List (Bool × List Nat × List Int)),
      pumpNative ((false, [], ws) :: o1) =
        (PEv.eofCheck false :: PEv.recv [] :: (pumpNative o1).1,
         (pumpNative o1).2)) := by
  refine ⟨pumpNative_clean_ends_eof, ?_⟩
  intro ws o1
  simp [pumpNative]

/-- Witness for C8 at a concrete oracle: a spurious empty read followed
by an EOF-terminated iteration ends cleanly with the EOF check last. -/
theorem c8_witness :
    ∃ t, (pumpNative [(false, [], []), (true, [], [])]).1 =
      t ++ [PEv.eofCheck true] :=
  c8_zero_read_retries_clean_end_only_on_eof.1
    [(false, [], []), (true, [], [])] (by decide)

/-- An element exhibited by a split of a list is a member of it. -/
lemma mem_of_split {α : Type} (t pre post : List α) (e : α)
    (h : t = pre ++ e :: post) : e ∈ t := by
  subst h
  exact List.mem_append_right pre (List.mem_cons_self e post)

/-- If a list starting with two elements distinct from `tgt` is split at
an occurrence of `tgt`, the second element lies in the prefix. -/
lemma second_mem_of_split {α : Type} (e0 e1 : α) (rest pre post : List α)
    (tgt : α) (h0 : e0 ≠ tgt) (h1 : e1 ≠ tgt)
    (h : e0 :: e1 :: rest = pre ++ tgt :: post) : e1 ∈ pre := by
  cases pre with
  | nil =>
    rw [List.nil_append] at h
    injection h with h2 _
    exact absurd h2 h0
  | cons x pre1 =>
    simp only [List.cons_append] at h
    injection h with hx h2
    cases pre1 with
    | nil =>
      rw [List.nil_append] at h2
      injection h2 with h3 _
      exact absurd h3 h1
    | cons y pre2 =>
      simp only [List.cons_append] at h2
      injection h2 with hy _
      rw [hy]
      simp

/-- Recognizer for result-queue publications. -/
def isPush : Ev → Bool
  | Ev.pushPort _ => true
  | _ => false

/-- Number of listen-port publications in a trace. -/
def pushCount (t : List Ev) : Nat := t.countP isPush

/-- The readiness waits of the channel-open retry loop publish
nothing. -/
lemma pushCount_replicate_wait (n : Nat) :
    (List.replicate n Ev.waitRW).countP isPush = 0 := by
  induction n with
  | zero => simp
  | succ k ih => simp [List.replicate_succ, List.countP_cons, ih, isPush]

/-- Claim C2: in both tunnel variants, a served forward request pushes
its listen port on the result queue exactly once, the push happens
strictly before the `accept()` call, and no execution reaches `accept()`
without the port having been published. -/
theorem c2_port_published_once_before_accept (o : PairO) :
    pushCount (startTunnelNative o) ≤ 1 ∧
    (o.allocOk = true → pushCount (startTunnelNative o) = 1) ∧
    (∀ pre b post,
      startTunnelNative o = pre ++ Ev.acceptCall b :: post →
      Ev.pushPort o.port ∈ pre) ∧
    pushCount (startTunnelLegacy o) ≤ 1 ∧
    (o.allocOk = true → pushCount (startTunnelLegacy o) = 1) ∧
    (∀ pre b post,
      startTunnelLegacy o = pre ++ Ev.acceptCall b :: post →
      Ev.pushPort o.port ∈ pre) := by
  obtain ⟨a, ac, n, c, pr, p⟩ := o
  refine ⟨?_, ?_, ?_, ?_, ?_, ?_⟩
  · cases a <;> cases ac <;> cases c <;> cases pr <;>
      simp [startTunnelNative, pushCount, isPush, List.countP_append,
        List.countP_cons, pushCount_replicate_wait]
  · intro ha
    subst ha
    cases ac <;> cases c <;> cases pr <;>
      simp [startTunnelNative, pushCount, isPush, List.countP_append,
        List.countP_cons, pushCount_replicate_wait]
  · intro pre b post h
    cases a with
    | false =>
      exfalso
      have hm := mem_of_split _ _ _ _ h
      simp [startTunnelNative] at hm
    | true =>
      simp only [startTunnelNative, Bool.true_eq_false, if_neg,
        Bool.false_eq_true, ite_false] at h
      exact second_mem_of_split _ _ _ _ _ _ (by simp) (by simp) h
  · cases a <;> cases ac <;> cases c <;> cases pr <;>
      simp [startTunnelLegacy, pushCount, isPush, List.countP_append,
        List.countP_cons, pushCount_replicate_wait]
  · intro ha
    subst ha
    cases ac <;> cases c <;> cases pr <;>
      simp [startTunnelLegacy, pushCount, isPush, List.countP_append,
        List.countP_cons, pushCount_replicate_wait]
  · intro pre b post h
    cases a with
    | false =>
      exfalso
      have hm := mem_of_split _ _ _ _ h
      simp [startTunnelLegacy] at hm
    | true =>
      simp only [startTunnelLegacy, Bool.true_eq_false, if_neg,
        Bool.false_eq_true, ite_false] at h
      exact second_mem_of_split _ _ _ _ _ _ (by simp) (by simp) h

/-- Witness for C2: for a concrete served request the native trace
publishes port 4022 exactly once, and in its split at the accept event
the publication lies in the prefix. -/
theorem c2_witness :
    pushCount (startTunnelNative ⟨true, true, 0, true, false, 4022⟩) = 1 ∧
    Ev.pushPort 4022 ∈ [Ev.bindListen true, Ev.pushPort 4022] :=
  ⟨(c2_port_published_once_before_accept ⟨true, true, 0, true, false, 4022⟩).2.1 rfl,
   (c2_port_published_once_before_accept ⟨true, true, 0, true, false, 4022⟩).2.2.1
     [Ev.bindListen true, Ev.pushPort 4022] true
     [Ev.openChan true, Ev.spawnPumps, Ev.joinPumps false,
      Ev.closeChannel, Ev.closeForward] (by decide)⟩

/-- `deque.pop()` on a deque whose most recent `append` was `x` returns
`x` and leaves the older entries. -/
lemma dequePop_concat {α : Type} (l : List α) (x : α) :
    dequePop (l ++ [x]) = some (x, l) := by
  simp [dequePop, List.getLast?_concat, List.dropLast_concat]

/-- Run to completion, the native consume loop serves the pending deque
entries newest-first. -/
lemma consumeLoop_eq_reverse {α : Type} (q : List α) :
    ∀ fuel, q.length ≤ fuel → consumeLoop fuel q = q.reverse := by
  induction q using List.reverseRecOn with
  | nil =>
    intro fuel h
    cases fuel <;> simp [consumeLoop, dequePop]
  | append_singleton l x ih =>
    intro fuel h
    cases fuel with
    | zero => simp at h
    | succ f =>
      have hl : l.length ≤ f := by simpa using h
      simp [consumeLoop, dequePop_concat, ih f hl]

/-- Claim C3 counterexample: with two requests pending on the intake
deque - submitted in the order a-then-b - the native `_consume_q` pops
request b first: `deque.pop()` removes the most recently appended entry,
so service order is LIFO, not FIFO. -/
theorem c3_counterexample_lifo_pop :
    consumeOrder [(("a", 1) : Req), ("b", 2)] = [("b", 2), ("a", 1)] ∧
    (consumeOrder [(("a", 1) : Req), ("b", 2)]).head? = some ("b", 2) ∧
    consumeOrder [(("a", 1) : Req), ("b", 2)] ≠ [("a", 1), ("b", 2)] := by
  refine ⟨rfl, rfl, by decide⟩

/-- Claim C3 amended: the native supervisor consumes every pending
intake entry exactly once, but in reverse submission order (most
recently submitted first), because the intake queue is a
`collections.deque` appended on the right and consumed with `pop()`
from the right. -/
theorem c3_amended_consume_once_lifo (q : List Req) :
    consumeOrder q = q.reverse ∧
    ∀ r : Req, (consumeOrder q).count r = q.count r := by
  have h : consumeOrder q = q.reverse :=
    consumeLoop_eq_reverse q q.length le_rfl
  refine ⟨h, fun r => ?_⟩
  rw [h, List.count_reverse]

/-- Claim C4: after the pump stage, the native `_start_tunnel` closes
the channel then the forward socket on every exit path (its `finally`
block), but the legacy `_start_tunnel` has no try/finally around
`joinall(..., raise_error=True)`: when a pump raises, the close calls
are skipped entirely.  Concretely, the legacy trace with raising pumps
joins them and closes neither resource. -/
theorem c4_legacy_skips_close_when_pump_raises :
    Ev.joinPumps true ∈ startTunnelLegacy ⟨true, true, 0, true, true, 4021⟩ ∧
    Ev.closeChannel ∉ startTunnelLegacy ⟨true, true, 0, true, true, 4021⟩ ∧
    Ev.closeForward ∉ startTunnelLegacy ⟨true, true, 0, true, true, 4021⟩ ∧
    (∀ raised : Bool,
      ∃ t, startTunnelNative ⟨true, true, 0, true, raised, 4021⟩ =
        t ++ [Ev.closeChannel, Ev.closeForward]) := by
  refine ⟨by decide, by decide, by decide, ?_⟩
  intro raised
  cases raised with
  | false =>
    exact ⟨[Ev.bindListen true, Ev.pushPort 4021, Ev.acceptCall true,
      Ev.openChan true, Ev.spawnPumps, Ev.joinPumps false], by decide⟩
  | true =>
    exact ⟨[Ev.bindListen true, Ev.pushPort 4021, Ev.acceptCall true,
      Ev.openChan true, Ev.spawnPumps, Ev.joinPumps true, Ev.logErr], by decide⟩

/-- Every pending intake entry is popped and handed to `spawn` by the
native consume loop, whatever becomes of the other pairs: the loop
never joins a spawned pair and never inspects its outcome. -/
lemma consumeTrace_serves_all (q : List Req) :
    ∀ r ∈ q, Ev.popReq r ∈ consumeTrace q ∧ Ev.spawnPair r ∈ consumeTrace q := by
  intro r hr
  have hco : consumeOrder q = q.reverse :=
    consumeLoop_eq_reverse q q.length le_rfl
  have hro : r ∈ consumeOrder q := by
    rw [hco]
    simpa using hr
  constructor
  · simp only [consumeTrace, List.mem_flatten]
    exact ⟨[Ev.popReq r, Ev.spawnPair r],
      List.mem_map.mpr ⟨r, hro, rfl⟩, by simp⟩
  · simp only [consumeTrace, List.mem_flatten]
    exact ⟨[Ev.popReq r, Ev.spawnPair r],
      List.mem_map.mpr ⟨r, hro, rfl⟩, by simp⟩

/-- Claim C5: each per-request and per-pair failure of the native
tunnel is contained.  A listen-allocation failure records the error and
the fresh socket is already closed; an accept failure records the error
and closes the listening socket; a channel-open failure records the
error and closes the accepted socket and the listening socket; a pump
error is logged and the channel and forward socket are still closed.
In every case only that pair ends: the supervisor loop pops and spawns
every submitted request regardless of any pair's oracle. -/
theorem c5_failures_contained :
    (∀ o : PairO, o.allocOk = false →
      startTunnelNative o =
        [Ev.bindListen false, Ev.closeFresh, Ev.logErr, Ev.setExc]) ∧
    (∀ o : PairO, o.allocOk = true → o.acceptOk = false →
      Ev.setExc ∈ startTunnelNative o ∧
      Ev.closeListen ∈ startTunnelNative o) ∧
    (∀ o : PairO, o.allocOk = true → o.acceptOk = true → o.chanOk = false →
      Ev.setExc ∈ startTunnelNative o ∧
      Ev.closeForward ∈ startTunnelNative o ∧
      Ev.closeListen ∈ startTunnelNative o) ∧
    (∀ o : PairO, o.allocOk = true → o.acceptOk = true → o.chanOk = true →
      o.pumpsRaise = true →
      Ev.logErr ∈ startTunnelNative o ∧
      Ev.closeChannel ∈ startTunnelNative o ∧
      Ev.closeForward ∈ startTunnelNative o) ∧
    (∀ (q : List Req), ∀ r ∈ q,
      Ev.popReq r ∈ consumeTrace q ∧ Ev.spawnPair r ∈ consumeTrace q) := by
  refine ⟨?_, ?_, ?_, ?_, consumeTrace_serves_all⟩
  · intro o ha
    simp [startTunnelNative, ha]
  · intro o ha hac
    obtain ⟨a, ac, n, c, pr, p⟩ := o
    cases ha
    cases hac
    constructor <;> simp [startTunnelNative]
  · intro o ha hac hc
    obtain ⟨a, ac, n, c, pr, p⟩ := o
    cases ha
    cases hac
    cases hc
    refine ⟨?_, ?_, ?_⟩ <;> simp [startTunnelNative]
  · intro o ha hac hc hpr
    obtain ⟨a, ac, n, c, pr, p⟩ := o
    cases ha
    cases hac
    cases hc
    cases hpr
    refine ⟨?_, ?_, ?_⟩ <;> simp [startTunnelNative]

/-- Witness for C5: concrete instances of each containment conjunct. -/
theorem c5_witness :
    startTunnelNative ⟨false, true, 0, true, false, 0⟩ =
      [Ev.bindListen false, Ev.closeFresh, Ev.logErr, Ev.setExc] ∧
    Ev.closeListen ∈ startTunnelNative ⟨true, false, 0, true, false, 4031⟩ ∧
    Ev.closeForward ∈ startTunnelNative ⟨true, true, 2, false, false, 4032⟩ ∧
    Ev.closeChannel ∈ startTunnelNative ⟨true, true, 0, true, true, 4033⟩ ∧
    Ev.spawnPair ("h", 22) ∈ consumeTrace [("h", 22)] :=
  ⟨c5_failures_contained.1 ⟨false, true, 0, true, false, 0⟩ rfl,
   (c5_failures_contained.2.1 ⟨true, false, 0, true, false, 4031⟩ rfl rfl).2,
   (c5_failures_contained.2.2.1 ⟨true, true, 2, false, false, 4032⟩ rfl rfl rfl).2.1,
   (c5_failures_contained.2.2.2.1 ⟨true, true, 0, true, true, 4033⟩ rfl rfl rfl rfl).2.1,
   (c5_failures_contained.2.2.2.2 [("h", 22)] ("h", 22) (by simp)).2⟩

/-- Claim C6: if session establishment fails, the native `run` records
the error, never sets the open latch, never enters the request loop,
and the supervisor thread terminates - while a successful establishment
leaves the thread alive, so polling the latch together with thread
liveness distinguishes a pending connection from a failed one. -/
theorem c6_session_failure_fatal (q : List Req) :
    (runNative false q).1 = [Ev.establish false, Ev.logErr, Ev.setExc] ∧
    Ev.setOpen ∉ (runNative false q).1 ∧
    (∀ r : Req, Ev.popReq r ∉ (runNative false q).1) ∧
    Ev.setExc ∈ (runNative false q).1 ∧
    (runNative false q).2 = true ∧
    (runNative true q).2 = false := by
  refine ⟨rfl, ?_, ?_, ?_, rfl, rfl⟩
  · simp [runNative]
  · intro r
    simp [runNative]
  · simp [runNative]

/-- Witness for C6 at a concrete request list. -/
theorem c6_witness :
    (runNative false [(("h", 22) : Req)]).1 =
      [Ev.establish false, Ev.logErr, Ev.setExc] ∧
    (runNative false [(("h", 22) : Req)]).2 = true :=
  ⟨(c6_session_failure_fatal [("h", 22)]).1,
   (c6_session_failure_fatal [("h", 22)]).2.2.2.2.1⟩

/-- Recognizer for latch-set events. -/
def isSetOpen : Ev → Bool
  | Ev.setOpen => true
  | _ => false

/-- The native consume loop neither sets nor clears the open latch:
its trace holds only pop and spawn events. -/
lemma consumeTrace_events (q : List Req) :
    ∀ e ∈ consumeTrace q, (∃ r, e = Ev.popReq r) ∨ ∃ r, e = Ev.spawnPair r := by
  intro e he
  simp only [consumeTrace, List.mem_flatten, List.mem_map] at he
  obtain ⟨l, ⟨r, _, rfl⟩, hel⟩ := he
  simp only [List.mem_cons, List.mem_singleton] at hel
  rcases hel with rfl | rfl | h
  · exact Or.inl ⟨r, rfl⟩
  · exact Or.inr ⟨r, rfl⟩
  · simp at h

/-- The consume-loop trace contains no latch-set event. -/
lemma countP_isSetOpen_consumeTrace (q : List Req) :
    (consumeTrace q).countP isSetOpen = 0 := by
  rw [List.countP_eq_zero]
  intro e he
  rcases consumeTrace_events q e he with ⟨r, rfl⟩ | ⟨r, rfl⟩ <;> simp [isSetOpen]

/-- The consume-loop trace contains no latch-clear event. -/
lemma clearOpen_not_mem_consumeTrace (q : List Req) :
    Ev.clearOpen ∉ consumeTrace q := by
  intro h
  rcases consumeTrace_events q Ev.clearOpen h with ⟨r, hr⟩ | ⟨r, hr⟩ <;> simp at hr

/-- Claim C7 amended (native variant): the open latch is set exactly
once, at session establishment, never cleared, and it is set before any
request is consumed. -/
theorem c7_amended_open_latch_native (ok : Bool) (q : List Req) :
    (runNative ok q).1.countP isSetOpen = (if ok then 1 else 0) ∧
    Ev.clearOpen ∉ (runNative ok q).1 ∧
    (∀ pre r post,
      (runNative ok q).1 = pre ++ Ev.popReq r :: post → Ev.setOpen ∈ pre) := by
  cases ok with
  | false =>
    refine ⟨by simp [runNative, List.countP_cons, isSetOpen], ?_, ?_⟩
    · simp [runNative]
    · intro pre r post h
      exfalso
      have hm := mem_of_split _ _ _ _ h
      simp [runNative] at hm
  | true =>
    refine ⟨?_, ?_, ?_⟩
    · simp [runNative, List.countP_cons, isSetOpen,
        countP_isSetOpen_consumeTrace]
    · intro hm
      have hn := clearOpen_not_mem_consumeTrace q
      simp [runNative, List.mem_cons, hn] at hm
    · intro pre r post h
      simp only [runNative] at h
      exact second_mem_of_split _ _ _ _ _ _ (by simp) (by simp) h

/-- Witness for C7 at a concrete oracle: one request, session
established; the latch-set count is one and the latch-set event lies
before the consumed request. -/
theorem c7_witness :
    (runNative true [(("h", 22) : Req)]).1.countP isSetOpen = 1 ∧
    Ev.setOpen ∈ [Ev.establish true, Ev.setOpen] :=
  ⟨by simpa using (c7_amended_open_latch_native true [("h", 22)]).1,
   (c7_amended_open_latch_native true [("h", 22)]).2.2
     [Ev.establish true, Ev.setOpen] ("h", 22) [Ev.spawnPair ("h", 22)]
     (by decide)⟩

/-- Claim C7 counterexample: in the legacy variant the latch is set by
`_start_tunnel` after the listen port is published, so a request is
consumed (index 1) strictly before the latch is first set (index 4),
refuting that the latch is set at the moment the session is established
and before any request is consumed. -/
theorem c7_counterexample_legacy_open_after_consume :
    (runLegacy true ("h", 22) ⟨true, true, 0, true, false, 4023⟩).get? 1 =
      some (Ev.popReq ("h", 22)) ∧
    (runLegacy true ("h", 22) ⟨true, true, 0, true, false, 4023⟩).get? 4 =
      some Ev.setOpen ∧
    Ev.setOpen ∉
      (runLegacy true ("h", 22) ⟨true, true, 0, true, false, 4023⟩).take 4 ∧
    (runLegacy true ("h", 22) ⟨true, true, 0, true, false, 4023⟩).get? 0 =
      some (Ev.establish true) := by
  refine ⟨rfl, rfl, by decide, rfl⟩

/-- Claim C9: `cleanup()` is idempotent.  After the first call every
tracked socket is closed and the session reference is cleared; a second
call closes already-closed sockets (harmless no-ops), observes the
session already cleared so it never disconnects twice, changes nothing,
and raises no error. -/
theorem c9_cleanup_idempotent (s : SupSt) :
    (cleanup (cleanup s).1).1 = (cleanup s).1 ∧
    (cleanup s).1.socksClosed = List.replicate s.socksClosed.length true ∧
    (cleanup s).1.sessionSome = false ∧
    CEv.disconnect ∉ (cleanup (cleanup s).1).2 ∧
    CEv.logErr ∉ (cleanup s).2 ∧
    CEv.logErr ∉ (cleanup (cleanup s).1).2 := by
  obtain ⟨socks, sess⟩ := s
  cases sess <;>
    refine ⟨?_, ?_, ?_, ?_, ?_, ?_⟩ <;>
      simp [cleanup, List.map_map, Function.comp, List.map_const,
        List.mem_map, List.mem_append]

/-- Witness for C9 at a concrete supervisor state: two tracked sockets
(one already closed) and a live session. -/
theorem c9_witness :
    (cleanup (cleanup ⟨[false, true], true⟩).1).1 =
      (cleanup ⟨[false, true], true⟩).1 ∧
    (cleanup (⟨[false, true], true⟩ : SupSt)).1.sessionSome = false :=
  ⟨(c9_cleanup_idempotent ⟨[false, true], true⟩).1,
   (c9_cleanup_idempotent ⟨[false, true], true⟩).2.2.1⟩

/-- Claim C10: a socket is appended to the tracked list only after bind
to the loopback interface and listen both succeeded; on a bind or
listen failure the fresh socket is closed immediately and the tracked
list is unchanged, so the list never holds a half-initialized socket:
if every tracked socket is bound to loopback and listening, the same
holds after any `_init_tunnel_sock` call. -/
theorem c10_tracked_sockets_fully_initialized (bindOk listenOk : Bool)
    (tracked : List TSock) (port : Nat) :
    ((initTunnelSock bindOk listenOk tracked port).2.2.isSome = true →
      bindOk = true ∧ listenOk = true ∧
      (initTunnelSock bindOk listenOk tracked port).2.1 =
        ⟨some "127.0.0.1", true, false⟩ ∧
      (initTunnelSock bindOk listenOk tracked port).1 =
        tracked ++ [⟨some "127.0.0.1", true, false⟩]) ∧
    ((initTunnelSock bindOk listenOk tracked port).2.2 = none →
      (initTunnelSock bindOk listenOk tracked port).1 = tracked ∧
      (initTunnelSock bindOk listenOk tracked port).2.1.closed = true) ∧
    ((∀ s ∈ tracked, s.addr = some "127.0.0.1" ∧ s.listening = true) →
      ∀ s ∈ (initTunnelSock bindOk listenOk tracked port).1,
        s.addr = some "127.0.0.1" ∧ s.listening = true) := by
  cases bindOk with
  | false =>
    refine ⟨?_, ?_, ?_⟩
    · intro h
      simp [initTunnelSock] at h
    · intro _
      exact ⟨rfl, rfl⟩
    · intro hinv s hs
      exact hinv s hs
  | true =>
    cases listenOk with
    | false =>
      refine ⟨?_, ?_, ?_⟩
      · intro h
        simp [initTunnelSock] at h
      · intro _
        exact ⟨rfl, rfl⟩
      · intro hinv s hs
        exact hinv s hs
    | true =>
      refine ⟨fun _ => ⟨rfl, rfl, rfl, rfl⟩, ?_, ?_⟩
      · intro h
        simp [initTunnelSock] at h
      · intro hinv s hs
        simp [initTunnelSock, List.mem_append, List.mem_singleton] at hs
        rcases hs with hs | rfl
        · exact hinv s hs
        · exact ⟨rfl, rfl⟩

/-- Witness for C10: with bind and listen succeeding and one
well-formed tracked socket, the invariant extends to the new list. -/
theorem c10_witness :
    (initTunnelSock true true [⟨some "127.0.0.1", true, false⟩] 4040).1 =
      [⟨some "127.0.0.1", true, false⟩, ⟨some "127.0.0.1", true, false⟩] ∧
    ∀ s ∈ (initTunnelSock true true [⟨some "127.0.0.1", true, false⟩] 4040).1,
      s.addr = some "127.0.0.1" ∧ s.listening = true :=
  ⟨(c10_tracked_sockets_fully_initialized true true
      [⟨some "127.0.0.1", true, false⟩] 4040).1 rfl |>.2.2.2,
   (c10_tracked_sockets_fully_initialized true true
      [⟨some "127.0.0.1", true, false⟩] 4040).2.2
     (by intro s hs; simp only [List.mem_singleton] at hs; subst hs; exact ⟨rfl, rfl⟩)⟩
